import Mathlib

/-!
# Taskalicious — shallow embedding and verification

A shallow Lean embedding of the Taskalicious crate (retry-with-backoff,
success-tracking liveness latch, sleep-duration specification), together with
theorems settling the specification's claims against it.

Durations are modelled as natural numbers (a count of time units, e.g.
milliseconds).  The external random source (`rand::thread_rng().gen_range`)
is modelled as an explicit function argument; asynchronous effects are
sequentialised (a task is modelled by the sequence of results of its
successive invocations).
-/

set_option linter.unusedVariables false

namespace Taskalicious

/-! ## SleepTime / SleepDuration (src/sleep_time.rs, src/sleep_duration.rs) -/

/-- Model of the `SleepTime` enum from `src/sleep_time.rs`: either a fixed
duration, or a `(min, max)` range resolved through the random source. -/
inductive SleepTime where
  | duration (d : Nat)
  | minMax (lo hi : Nat)
  deriving DecidableEq, Repr

/-- Model of the `SleepDuration` enum from `src/sleep_duration.rs`; its variant
structure is identical to `SleepTime`. -/
inductive SleepDuration where
  | duration (d : Nat)
  | minMax (lo hi : Nat)
  deriving DecidableEq, Repr

/-- Model of `SleepTime::into_duration` (src/sleep_time.rs lines 17-23).
The source draws from `thread_rng().gen_range(min..max)`; the random source is
an external collaborator, passed here explicitly as `genRange`. -/
def SleepTime.into_duration (genRange : Nat → Nat → Nat) : SleepTime → Nat
  | .duration d => d
  | .minMax lo hi => genRange lo hi

/-- Model of `SleepDuration::into_duration` (src/sleep_duration.rs lines
33-38), identical in structure to `SleepTime.into_duration`. -/
def SleepDuration.into_duration (genRange : Nat → Nat → Nat) : SleepDuration → Nat
  | .duration d => d
  | .minMax lo hi => genRange lo hi

/-- Modelled from the spec: the random-source collaborator is external to the
repository and is specified only at its interface boundary — "produce a value
uniformly distributed in [min, max)".  This predicate captures exactly the
range part of that contract for a candidate sampling function. -/
def GenRangeInBounds (g : Nat → Nat → Nat) : Prop :=
  ∀ lo hi, lo < hi → lo ≤ g lo hi ∧ g lo hi < hi

/-! ## RetryTask (src/retry_task.rs)

`RetryTask::run` takes a repeatable closure `fun`; each call of the closure
yields a fresh fallible future.  We model the closure by the sequence of
results of its successive invocations, `f : Nat → Except E V` (`f i` is the
result of the `i`-th invocation, 0-based).  The model returns the outcome
together with the number of invocations made and the number of sleeps
performed, so that call-count and sleep-count claims are statable. -/

/-- The error side of `RetryTask::run`'s result: either an error produced by
the task (converted `Into<AnyhowError>`), or the fallback error built by
`unwrap_or_else` when the loop ends with `last_error = None`
("Ran out of retries and error was not caught (this should not be possible)"). -/
inductive RetryError (E : Type) where
  | ofTask (e : E)
  | noErrorCaught
  deriving DecidableEq, Repr

/-- Possible outcomes of one call to `RetryTask::run`.  `panicked` represents
an abort/panic-equivalent termination; it lets claims about "failing loudly"
be stated.  The model shows the code never produces it. -/
inductive RunOutcome (V E : Type) where
  | ok (v : V)
  | err (e : RetryError E)
  | panicked
  deriving DecidableEq, Repr

/-- Model of the `RetryTask` configuration struct (src/retry_task.rs lines
11-15); `num_retries` is the `u32` field, `sleep_time` the `SleepTime` field. -/
structure RetryTask where
  num_retries : Nat
  sleep_time : SleepTime
  deriving DecidableEq, Repr

/-- The body of `RetryTask::run`'s `for retry in 0..num_retries` loop
(src/retry_task.rs lines 53-69), as a structural recursion over the list of
remaining loop indices.  State threaded through: `last_error`, the number of
calls made, and the number of sleeps performed.  The branch structure —
including the inner `if retry < num_retries` guard on the sleep, kept exactly
as in the source — mirrors the Rust loop body. -/
def RetryTask.runGo {V E : Type} (num_retries : Nat) (f : Nat → Except E V) :
    List Nat → Option E → Nat → Nat → RunOutcome V E × Nat × Nat
  | [], last_error, calls, sleeps =>
      match last_error with
      | some e => (.err (.ofTask e), calls, sleeps)
      | none => (.err .noErrorCaught, calls, sleeps)
  | retry :: rest, last_error, calls, sleeps =>
      match f retry with
      | .ok v => (.ok v, calls + 1, sleeps)
      | .error e =>
          if retry < num_retries then
            RetryTask.runGo num_retries f rest (some e) (calls + 1) (sleeps + 1)
          else
            RetryTask.runGo num_retries f rest (some e) (calls + 1) sleeps

/-- Model of `RetryTask::run` (src/retry_task.rs lines 42-75): run the loop
over the indices `0..num_retries` starting with no recorded error.  Returns
`(outcome, number of task invocations, number of sleeps)`. -/
def RetryTask.run {V E : Type} (self : RetryTask) (f : Nat → Except E V) :
    RunOutcome V E × Nat × Nat :=
  RetryTask.runGo self.num_retries f (List.range self.num_retries) none 0 0

/-! ### Retry loop lemmas -/

/-- Unfolding: an index block `range' j (k+1)` starts with `j`. -/
theorem range'_cons (j k : Nat) : List.range' j (k + 1) = j :: List.range' (j + 1) k := rfl

/-- One loop iteration in which the task succeeds: the loop returns the value
at once, counting one more call and no more sleeps. -/
theorem runGo_cons_ok {V E : Type} (n : Nat) (f : Nat → Except E V) (retry : Nat)
    (rest : List Nat) (le : Option E) (c s : Nat) (v : V) (hfr : f retry = .ok v) :
    RetryTask.runGo n f (retry :: rest) le c s = (.ok v, c + 1, s) := by
  simp [RetryTask.runGo, hfr]

/-- One loop iteration in which the task fails on an in-range index: the loop
records the error, sleeps, and continues with the remaining indices. -/
theorem runGo_cons_err {V E : Type} (n : Nat) (f : Nat → Except E V) (retry : Nat)
    (rest : List Nat) (le : Option E) (c s : Nat) (e : E) (hfr : f retry = .error e)
    (hr : retry < n) :
    RetryTask.runGo n f (retry :: rest) le c s
      = RetryTask.runGo n f rest (some e) (c + 1) (s + 1) := by
  simp [RetryTask.runGo, hfr, hr]

/-- Running the loop over a nonempty block of in-range indices on which the
task always fails consumes the whole block, making one call and one sleep per
index, and ends carrying the error of the block's last index. -/
theorem runGo_allFail {V E : Type} (n : Nat) (f : Nat → Except E V) (es : Nat → E)
    (hf : ∀ i, f i = .error (es i)) :
    ∀ (k j : Nat) (le : Option E) (c s : Nat), j + k < n →
      RetryTask.runGo n f (List.range' j (k + 1)) le c s
        = (.err (.ofTask (es (j + k))), c + (k + 1), s + (k + 1)) := by
  intro k
  induction k with
  | zero =>
    intro j le c s hj
    have hjn : j < n := by omega
    rw [range'_cons, runGo_cons_err n f j _ le c s (es j) (hf j) hjn]
    rfl
  | succ k ih =>
    intro j le c s hj
    have hjn : j < n := by omega
    rw [range'_cons, runGo_cons_err n f j _ le c s (es j) (hf j) hjn,
      ih (j + 1) (some (es j)) (c + 1) (s + 1) (by omega)]
    have h1 : j + 1 + k = j + (k + 1) := by omega
    rw [h1]
    simp only [Prod.mk.injEq]
    exact ⟨trivial, by omega, by omega⟩

/-- Running the loop over a block of indices starting at `j`, where the task
fails on every invocation before `m` and succeeds at `m`, with
`j ≤ m < j + len` and `m < n`: the loop returns the success value after
`m - j + 1` calls and `m - j` sleeps. -/
theorem runGo_succeedsAt {V E : Type} (n : Nat) (f : Nat → Except E V) (es : Nat → E)
    (m : Nat) (v : V) (hm : f m = .ok v) (hf : ∀ i, i < m → f i = .error (es i))
    (hmn : m < n) :
    ∀ (d j len : Nat) (le : Option E) (c s : Nat), j + d = m → m < j + len →
      RetryTask.runGo n f (List.range' j len) le c s = (.ok v, c + d + 1, s + d) := by
  intro d
  induction d with
  | zero =>
    intro j len le c s hjd hlen
    have hj : j = m := by omega
    subst hj
    match len with
    | 0 => omega
    | len + 1 =>
      rw [range'_cons, runGo_cons_ok n f j _ le c s v hm]
      simp
  | succ d ih =>
    intro j len le c s hjd hlen
    have hjm : j < m := by omega
    have hjn : j < n := by omega
    match len with
    | 0 => omega
    | len + 1 =>
      rw [range'_cons, runGo_cons_err n f j _ le c s (es j) (hf j hjm) hjn,
        ih (j + 1) len (some (es j)) (c + 1) (s + 1) (by omega) (by omega)]
      simp only [Prod.mk.injEq]
      exact ⟨trivial, by omega, by omega⟩

/-- The retry loop never produces the `panicked` outcome: every exit path
returns a normal `ok`/`err` value. -/
theorem runGo_ne_panicked {V E : Type} (n : Nat) (f : Nat → Except E V) :
    ∀ (l : List Nat) (le : Option E) (c s : Nat),
      (RetryTask.runGo n f l le c s).1 ≠ RunOutcome.panicked := by
  intro l
  induction l with
  | nil =>
    intro le c s
    cases le <;> simp [RetryTask.runGo]
  | cons retry rest ih =>
    intro le c s
    simp only [RetryTask.runGo]
    cases hfr : f retry with
    | ok v => simp
    | error e =>
      by_cases hr : retry < n
      · simpa [hr] using ih (some e) (c + 1) (s + 1)
      · simpa [hr] using ih (some e) (c + 1) s

/-! ### Retry claims -/

/-- C1: for every `num_retries = n ≥ 1` and every task that fails on every
invocation (invocation `i` producing error `es i`, 0-based), `RetryTask::run`
invokes the task exactly `n` times and returns an `Err` carrying the error of
the `n`-th (final) invocation, `es (n - 1)`.  (The model also records that
`n` sleeps are performed.) -/
theorem retry_always_fail_runs_all_attempts {V E : Type} (rt : RetryTask)
    (f : Nat → Except E V) (es : Nat → E) (hn : 1 ≤ rt.num_retries)
    (hf : ∀ i, f i = .error (es i)) :
    rt.run f
      = (.err (.ofTask (es (rt.num_retries - 1))), rt.num_retries, rt.num_retries) := by
  have h := runGo_allFail rt.num_retries f es hf (rt.num_retries - 1) 0 none 0 0 (by omega)
  have hr : List.range rt.num_retries = List.range' 0 (rt.num_retries - 1 + 1) := by
    rw [List.range_eq_range']
    congr 1
    omega
  unfold RetryTask.run
  rw [hr, h]
  simp only [Nat.zero_add, Prod.mk.injEq]
  exact ⟨trivial, by omega, by omega⟩

/-- Witness for C1 at `num_retries = 2` and the always-failing task whose
`i`-th invocation fails with error `i`. -/
theorem retry_always_fail_runs_all_attempts_witness :
    (RetryTask.mk 2 (SleepTime.duration 0)).run (fun i => (Except.error i : Except Nat Nat))
      = (.err (.ofTask 1), 2, 2) :=
  retry_always_fail_runs_all_attempts (RetryTask.mk 2 (SleepTime.duration 0))
    (fun i => Except.error i) (fun i => i) (by decide) (fun i => rfl)

/-- C2 (evidence of the code bug): with `num_retries = 1` and a task that
always fails, the final (and only) attempt is followed by a sleep before the
error is returned — the guard `retry < num_retries` at src/retry_task.rs line
62 is always true inside `for retry in 0..num_retries`, so the sleep count is
1, not 0. -/
theorem retry_trailing_sleep_after_final_attempt :
    (RetryTask.mk 1 (SleepTime.duration 0)).run (fun i => (Except.error 0 : Except Nat Unit))
      = (.err (.ofTask 0), 1, 1) := rfl

/-- C3 counterexample: with `num_retries = 0` the loop exits with no recorded
error, and `run` returns the fallback "Ran out of retries and error was not
caught" error as a normal `Err` result — it does not produce a panic-equivalent
outcome, contrary to the claim. -/
theorem retry_zero_attempts_returns_err_not_panic :
    (RetryTask.mk 0 (SleepTime.duration 0)).run (fun i => (Except.error 0 : Except Nat Unit))
      = (.err .noErrorCaught, 0, 0)
    ∧ ((RetryTask.mk 0 (SleepTime.duration 0)).run
        (fun i => (Except.error 0 : Except Nat Unit))).1 ≠ RunOutcome.panicked :=
  ⟨rfl, by decide⟩

/-- C3 (amended): when the retry loop exits without a recorded error — which
happens exactly when `num_retries = 0`, where no attempt is made — `run`
returns the fallback internal-contract error as a normal `Err` result (built
by `unwrap_or_else`); no execution of the retry loop produces a
panic-equivalent outcome. -/
theorem retry_missing_error_fallback_err {V E : Type} (st : SleepTime)
    (f : Nat → Except E V) :
    (RetryTask.mk 0 st).run f = (.err .noErrorCaught, 0, 0)
    ∧ ∀ rt : RetryTask, (rt.run f).1 ≠ RunOutcome.panicked := by
  constructor
  · rfl
  · intro rt
    exact runGo_ne_panicked rt.num_retries f (List.range rt.num_retries) none 0 0

/-- Witness for the amended C3 at `num_retries = 0` with a concrete failing
task: the fallback error is returned as a plain value. -/
theorem retry_missing_error_fallback_err_witness :
    (RetryTask.mk 0 (SleepTime.duration 0)).run (fun i => (Except.error 0 : Except Nat Unit))
      = (.err .noErrorCaught, 0, 0) :=
  (retry_missing_error_fallback_err (SleepTime.duration 0) (fun i => Except.error 0)).1

/-- C4: for every `num_retries = n`, if the task fails on its first `k - 1`
invocations and succeeds on invocation `k` (0-based index `k - 1`) with
`1 ≤ k ≤ n`, then `run` invokes the task exactly `k` times, returns `Ok` with
the value of the `k`-th invocation, and performs no further attempts (and
exactly `k - 1` sleeps, none after the successful attempt). -/
theorem retry_succeeds_at_k {V E : Type} (rt : RetryTask) (f : Nat → Except E V)
    (es : Nat → E) (k : Nat) (v : V) (hk : 1 ≤ k) (hkn : k ≤ rt.num_retries)
    (hf : ∀ i, i < k - 1 → f i = .error (es i)) (hv : f (k - 1) = .ok v) :
    rt.run f = (.ok v, k, k - 1) := by
  have h := runGo_succeedsAt rt.num_retries f es (k - 1) v hv hf (by omega)
    (k - 1) 0 rt.num_retries none 0 0 (by omega) (by omega)
  unfold RetryTask.run
  rw [List.range_eq_range', h]
  simp only [Prod.mk.injEq]
  exact ⟨trivial, by omega, by omega⟩

/-- Witness for C4: `num_retries = 3`, a task failing on its first invocation
and succeeding with value 5 on its second: two calls, `Ok 5`, one sleep. -/
theorem retry_succeeds_at_k_witness :
    (RetryTask.mk 3 (SleepTime.duration 0)).run
        (fun i => if i = 0 then Except.error 0 else Except.ok 5)
      = (.ok (5 : Nat), 2, 1) :=
  retry_succeeds_at_k (RetryTask.mk 3 (SleepTime.duration 0))
    (fun i => if i = 0 then Except.error 0 else Except.ok 5) (fun i => (0 : Nat)) 2 5
    (by decide) (by decide) (fun i hi => by interval_cases i; rfl) rfl

/-! ## SuccessTrackingTask (src/success_tracking_task.rs)

The latch is an `Arc<AtomicBool>` shared by every clone; all mutations of the
flag in the source are stores of `false` (`abort`, a failed `run`, a failed
`while_alive` iteration, `Drop::drop`).  Sequentialising, the shared flag is a
single `Bool` (`true` = alive) threaded through the operations; every clone
reads and writes this same cell, so "the value a clone observes" is by
construction the value of this one flag. -/

/-- The error side of `SuccessTrackingTask::run` / `while_alive` results:
either the "calling run on a task that has already ended" error, or an error
produced by the guarded operation (converted `Into<AnyhowError>`). -/
inductive STTError (E : Type) where
  | alreadyDead
  | opError (e : E)
  deriving DecidableEq, Repr

/-- Model of `SuccessTrackingTask::new` (lines 17-22): the freshly constructed
shared flag, `AtomicBool::new(true)`. -/
def SuccessTrackingTask.new : Bool := true

/-- Model of `SuccessTrackingTask::is_alive` (lines 28-30): read the flag. -/
def SuccessTrackingTask.is_alive (alive : Bool) : Bool := alive

/-- Model of `SuccessTrackingTask::abort` (lines 32-34): store `false`. -/
def SuccessTrackingTask.abort (alive : Bool) : Bool := false

/-- Model of `impl Drop for SuccessTrackingTask` (lines 98-102): dropping any
holder calls `abort` on the shared flag. -/
def SuccessTrackingTask.drop (alive : Bool) : Bool := SuccessTrackingTask.abort alive

/-- Model of `SuccessTrackingTask::run` (lines 36-55).  `op` is the eventual
result of the supplied one-shot operation.  Returns
`(flag afterwards, result, whether the operation was awaited)`; the last
component is `false` exactly when the operation's side effects do not occur. -/
def SuccessTrackingTask.run {V E : Type} (alive : Bool) (op : Except E V) :
    Bool × Except (STTError E) V × Bool :=
  if !(SuccessTrackingTask.is_alive alive) then (alive, .error .alreadyDead, false)
  else
    match op with
    | .ok v => (alive, .ok v, true)
    | .error e => (SuccessTrackingTask.abort alive, .error (.opError e), true)

/-- A repeatable task driven by `while_alive`, together with its concurrent
environment: `result i` is the result of the task's `i`-th invocation
(0-based), and `externalAbort i` records whether some other holder of the
latch called `abort()` while invocation `i` was in flight (i.e. between the
completion of call `i` and the loop's next `is_alive` check).  An external
holder can only ever store `false` — `abort` is the sole mutation the source
exposes — so the environment cannot revive the flag. -/
structure WhileAliveTask (E : Type) where
  result : Nat → Except E Unit
  externalAbort : Nat → Bool

/-- Outcome of `SuccessTrackingTask::while_alive`: `ok` is the clean
`Ok(())` exit taken when another holder killed the latch, `alreadyDead` the
immediate error on an already-dead latch, and `taskErr e` the error returned
when the task itself failed. -/
inductive WAOutcome (E : Type) where
  | ok
  | alreadyDead
  | taskErr (e : E)
  deriving DecidableEq, Repr

/-- The `while self.is_alive()` loop of `while_alive` (lines 66-77), with
explicit fuel bounding the number of iterations examined (the source loop has
no built-in bound).  Arguments: fuel, the index of the next invocation, the
current flag.  Returns `(outcome, total number of calls made, final flag)`;
the outcome is `none` when the fuel ran out with the loop still spinning. -/
def SuccessTrackingTask.whileAliveLoop {E : Type} (t : WhileAliveTask E) :
    Nat → Nat → Bool → Option (WAOutcome E) × Nat × Bool
  | 0, idx, alive => (none, idx, alive)
  | fuel + 1, idx, alive =>
      if SuccessTrackingTask.is_alive alive then
        match t.result idx with
        | .error e => (some (.taskErr e), idx + 1, SuccessTrackingTask.abort alive)
        | .ok _ =>
            SuccessTrackingTask.whileAliveLoop t fuel (idx + 1)
              (alive && !(t.externalAbort idx))
      else
        (some .ok, idx, alive)

/-- Model of `SuccessTrackingTask::while_alive` (lines 57-81): the immediate
`AlreadyDead` check, then the loop. -/
def SuccessTrackingTask.whileAlive {E : Type} (alive : Bool) (t : WhileAliveTask E)
    (fuel : Nat) : Option (WAOutcome E) × Nat × Bool :=
  if !(SuccessTrackingTask.is_alive alive) then (some .alreadyDead, 0, alive)
  else SuccessTrackingTask.whileAliveLoop t fuel 0 alive

/-! ### while_alive loop lemmas -/

/-- Stepping the loop through `d` consecutive successful, unaborted
invocations advances the invocation index by `d` and consumes `d` units of
fuel, leaving the flag alive. -/
theorem whileAliveLoop_ok_steps {E : Type} (t : WhileAliveTask E) :
    ∀ (d fuel idx : Nat), d ≤ fuel →
      (∀ i, idx ≤ i → i < idx + d → t.result i = .ok () ∧ t.externalAbort i = false) →
      SuccessTrackingTask.whileAliveLoop t fuel idx true
        = SuccessTrackingTask.whileAliveLoop t (fuel - d) (idx + d) true := by
  intro d
  induction d with
  | zero =>
    intro fuel idx hd h
    rfl
  | succ d ih =>
    intro fuel idx hd h
    cases fuel with
    | zero => exact absurd hd (by omega)
    | succ fuel =>
      have h0 := h idx (Nat.le_refl idx) (by omega)
      have hrest : ∀ i, idx + 1 ≤ i → i < idx + 1 + d →
          t.result i = .ok () ∧ t.externalAbort i = false := by
        intro i h1 h2
        exact h i (by omega) (by omega)
      have step : SuccessTrackingTask.whileAliveLoop t (fuel + 1) idx true
          = SuccessTrackingTask.whileAliveLoop t fuel (idx + 1) true := by
        simp [SuccessTrackingTask.whileAliveLoop, SuccessTrackingTask.is_alive, h0.1, h0.2]
      rw [step, ih fuel (idx + 1) (by omega) hrest]
      have e1 : fuel - d = fuel + 1 - (d + 1) := by omega
      have e2 : idx + 1 + d = idx + (d + 1) := by omega
      rw [e1, e2]

/-- Once the flag is dead, the next loop check exits cleanly with `Ok(())`
without further invocations. -/
theorem whileAliveLoop_dead {E : Type} (t : WhileAliveTask E) (fuel idx : Nat)
    (hf : 1 ≤ fuel) :
    SuccessTrackingTask.whileAliveLoop t fuel idx false = (some .ok, idx, false) := by
  cases fuel with
  | zero => exact absurd hf (by omega)
  | succ fuel => rfl

/-! ### Latch claims -/

/-- C5: behaviour of `while_alive`.  (i) On a dead latch it returns the
`AlreadyDead` error with zero task invocations.  (ii) On a live latch with a
task that fails on its `k`-th call (and no external abort), it invokes the
task exactly `k` times, leaves the latch dead, and returns that call's error.
(iii) On a live latch whose task always succeeds but where another holder
aborts the latch while call `j` is in flight, it performs exactly `j` calls
and returns the clean `Ok(())` exit, the latch dead. -/
theorem while_alive_behaviour (E : Type) :
    (∀ (t : WhileAliveTask E) (fuel : Nat),
        SuccessTrackingTask.whileAlive false t fuel = (some .alreadyDead, 0, false))
    ∧ (∀ (t : WhileAliveTask E) (k fuel : Nat) (e : E), 1 ≤ k → k ≤ fuel →
        (∀ i, i < k - 1 → t.result i = .ok ()) →
        t.result (k - 1) = .error e →
        (∀ i, t.externalAbort i = false) →
        SuccessTrackingTask.whileAlive true t fuel = (some (.taskErr e), k, false))
    ∧ (∀ (t : WhileAliveTask E) (j fuel : Nat), 1 ≤ j → j + 1 ≤ fuel →
        (∀ i, t.result i = .ok ()) →
        (∀ i, i < j - 1 → t.externalAbort i = false) →
        t.externalAbort (j - 1) = true →
        SuccessTrackingTask.whileAlive true t fuel = (some .ok, j, false)) := by
  refine ⟨fun t fuel => rfl, ?_, ?_⟩
  · intro t k fuel e hk hfuel hok hkerr hab
    have hsteps := whileAliveLoop_ok_steps t (k - 1) fuel 0 (by omega)
      (by intro i h1 h2; exact ⟨hok i (by omega), hab i⟩)
    show SuccessTrackingTask.whileAliveLoop t fuel 0 true = _
    rw [hsteps]
    obtain ⟨F, hF⟩ : ∃ F, fuel - (k - 1) = F + 1 := ⟨fuel - (k - 1) - 1, by omega⟩
    rw [hF]
    have hidx : (0 : Nat) + (k - 1) = k - 1 := by omega
    rw [hidx]
    simp only [SuccessTrackingTask.whileAliveLoop, SuccessTrackingTask.is_alive,
      SuccessTrackingTask.abort, if_true, hkerr]
    simp only [Prod.mk.injEq]
    exact ⟨trivial, by omega, trivial⟩
  · intro t j fuel hj hfuel hok hab habj
    have hsteps := whileAliveLoop_ok_steps t (j - 1) fuel 0 (by omega)
      (by intro i h1 h2; exact ⟨hok i, hab i (by omega)⟩)
    show SuccessTrackingTask.whileAliveLoop t fuel 0 true = _
    rw [hsteps]
    obtain ⟨F, hF⟩ : ∃ F, fuel - (j - 1) = F + 2 := ⟨fuel - (j - 1) - 2, by omega⟩
    rw [hF]
    have hidx : (0 : Nat) + (j - 1) = j - 1 := by omega
    rw [hidx]
    have hstep2 : SuccessTrackingTask.whileAliveLoop t (F + 1 + 1) (j - 1) true
        = SuccessTrackingTask.whileAliveLoop t (F + 1) (j - 1 + 1) false := by
      simp [SuccessTrackingTask.whileAliveLoop, SuccessTrackingTask.is_alive,
        hok (j - 1), habj]
    rw [hstep2, whileAliveLoop_dead t (F + 1) (j - 1 + 1) (by omega)]
    simp only [Prod.mk.injEq]
    exact ⟨trivial, by omega, trivial⟩

/-- Witness for C5, part (ii): a live latch with a task failing on its first
call with error 9; one call, `taskErr 9`, latch dead. -/
theorem while_alive_behaviour_witness :
    SuccessTrackingTask.whileAlive true ⟨fun i => Except.error 9, fun i => false⟩ 2
      = (some (.taskErr 9), 1, false) :=
  (while_alive_behaviour Nat).2.1 ⟨fun i => Except.error 9, fun i => false⟩ 1 2 9
    (by decide) (by decide) (fun i hi => absurd hi (by omega)) rfl (fun i => rfl)

/-- C6: behaviour of `SuccessTrackingTask::run`.  On a dead latch it returns
the `AlreadyDead` error without awaiting the operation (third component
`false`: the operation's side effects do not occur) and the latch stays dead.
On a live latch the operation is awaited exactly once; on success the flag is
unchanged and the value returned; on failure the flag is dead when the error
is returned. -/
theorem stt_run_behaviour (V E : Type) :
    (∀ op : Except E V,
        SuccessTrackingTask.run false op = (false, .error .alreadyDead, false))
    ∧ (∀ v : V,
        SuccessTrackingTask.run true (Except.ok v : Except E V) = (true, .ok v, true))
    ∧ (∀ e : E,
        SuccessTrackingTask.run true (Except.error e : Except E V)
          = (false, .error (.opError e), true)) :=
  ⟨fun op => rfl, fun v => rfl, fun e => rfl⟩

/-- The operations through which the source ever touches the shared flag:
`abort`, `Drop::drop`, a guarded `run`, and a `while_alive` loop (with its
task, environment and examined iteration budget). -/
inductive LatchOp (E V : Type) where
  | abortOp
  | dropOp
  | runOp (op : Except E V)
  | whileAliveOp (t : WhileAliveTask E) (fuel : Nat)

/-- The flag after executing one latch operation on the shared flag. -/
def applyLatchOp {E V : Type} (op : LatchOp E V) (alive : Bool) : Bool :=
  match op with
  | .abortOp => SuccessTrackingTask.abort alive
  | .dropOp => SuccessTrackingTask.drop alive
  | .runOp o => (SuccessTrackingTask.run alive o).1
  | .whileAliveOp t fuel => (SuccessTrackingTask.whileAlive alive t fuel).2.2

/-- C7: the latch flag is monotonic.  A newly constructed latch is alive; no
single operation maps a dead flag back to alive; hence after any sequence of
operations applied to a dead flag the latch is still dead.  (Clones all
reference the single shared `AtomicBool` cell, which is the one `Bool` of this
model, so every clone observes exactly this flag value.) -/
theorem latch_flag_monotonic (E V : Type) :
    SuccessTrackingTask.is_alive SuccessTrackingTask.new = true
    ∧ (∀ op : LatchOp E V, applyLatchOp op false = false)
    ∧ (∀ ops : List (LatchOp E V),
        SuccessTrackingTask.is_alive
            (List.foldl (fun a op => applyLatchOp op a) false ops) = false) := by
  have hstep : ∀ op : LatchOp E V, applyLatchOp op false = false := by
    intro op
    cases op with
    | abortOp => rfl
    | dropOp => rfl
    | runOp o => rfl
    | whileAliveOp t fuel => rfl
  refine ⟨rfl, hstep, ?_⟩
  intro ops
  induction ops with
  | nil => rfl
  | cons op rest ih =>
    simp only [List.foldl]
    rw [hstep op]
    exact ih

/-- C8: dropping any holder of the latch aborts the shared flag: whatever its
value beforehand, after the drop `is_alive` reads `false` — and since every
remaining clone reads the same shared cell, each of them observes `false`. -/
theorem drop_kills_latch :
    ∀ alive : Bool,
      SuccessTrackingTask.is_alive (SuccessTrackingTask.drop alive) = false :=
  fun alive => rfl

/-- C9: resolving a sleep specification.  For `Fixed(d)` (`Duration` variant)
both `SleepTime::into_duration` and `SleepDuration::into_duration` return `d`
unchanged for every random source.  For `Range(lo, hi)` (`MinMax` variant)
with `lo < hi`, under the random-source contract ("a value in `[min, max)`"),
every resolution lies in `[lo, hi)`: at least `lo`, strictly below `hi`. -/
theorem sleep_resolution_bounds (g : Nat → Nat → Nat) (hg : GenRangeInBounds g) :
    (∀ d : Nat, SleepTime.into_duration g (.duration d) = d)
    ∧ (∀ d : Nat, SleepDuration.into_duration g (.duration d) = d)
    ∧ (∀ lo hi : Nat, lo < hi →
        lo ≤ SleepTime.into_duration g (.minMax lo hi)
          ∧ SleepTime.into_duration g (.minMax lo hi) < hi)
    ∧ (∀ lo hi : Nat, lo < hi →
        lo ≤ SleepDuration.into_duration g (.minMax lo hi)
          ∧ SleepDuration.into_duration g (.minMax lo hi) < hi) :=
  ⟨fun d => rfl, fun d => rfl, fun lo hi h => hg lo hi h, fun lo hi h => hg lo hi h⟩

/-- Witness for C9 with the in-bounds sampler that returns the lower end, on
the range `[2, 5)`. -/
theorem sleep_resolution_bounds_witness :
    2 ≤ SleepTime.into_duration (fun lo hi => lo) (.minMax 2 5)
      ∧ SleepTime.into_duration (fun lo hi => lo) (.minMax 2 5) < 5 :=
  (sleep_resolution_bounds (fun lo hi => lo)
    (fun lo hi h => ⟨Nat.le_refl lo, h⟩)).2.2.1 2 5 (by decide)

/-- C10: `while_alive` has no built-in iteration bound.  Starting alive, with
a task that succeeds on every call and no other holder ever aborting the
latch, the loop is still spinning after any number of examined iterations
(outcome `none` for every fuel): it terminates only if the task eventually
fails or the latch is externally killed. -/
theorem while_alive_never_terminates (E : Type) (t : WhileAliveTask E)
    (hok : ∀ i, t.result i = .ok ()) (hab : ∀ i, t.externalAbort i = false) :
    ∀ fuel : Nat, (SuccessTrackingTask.whileAlive true t fuel).1 = none := by
  intro fuel
  have h := whileAliveLoop_ok_steps t fuel fuel 0 (Nat.le_refl fuel)
    (fun i h1 h2 => ⟨hok i, hab i⟩)
  show (SuccessTrackingTask.whileAliveLoop t fuel 0 true).1 = none
  rw [h]
  have hz : fuel - fuel = 0 := by omega
  rw [hz]
  rfl

/-- Witness for C10 at fuel 3 with the always-succeeding, never-aborted task. -/
theorem while_alive_never_terminates_witness :
    (SuccessTrackingTask.whileAlive true
        (⟨fun i => Except.ok (), fun i => false⟩ : WhileAliveTask Unit) 3).1 = none :=
  while_alive_never_terminates Unit ⟨fun i => Except.ok (), fun i => false⟩
    (fun i => rfl) (fun i => rfl) 3

end Taskalicious
